import Mathlib

/-!
# gobox: batched Kafka consumption (package kafkax) and rate-limit delegation

Shallow embedding of

* `kafka-gox/bulk_reader_handler.go` (`BulkHandler`: `ReadMsg`, `mergeMessage`,
  `logError`, `Close`, the setters),
* `kafka-gox/reader_handler.go` (`Handler`: `ReadMsg`, `logError`, `Close`),
* `gorm/ratelimit.go` (`RateLimitCallbacks`: `limit`, `key`, `WithOperationLimiter`),
* `grpcx/interceptors/ratelimit/slidewindow/slide_window.go`
  (`Limiter.BuildUnaryServerInterceptor`).

The collaborators (Kafka reader, contexts, decode and process functions, limiter,
gRPC handler) are arbitrary state transformers on an abstract world `ω`; every
call into one of them is recorded in a trace.  Loops that need not terminate
take a fuel argument that bounds the number of loop iterations.
-/

/-- A Go `error` value that is not nil: what `errors.Is` answers for the three sentinels
`io.EOF`, `context.Canceled` and `context.DeadlineExceeded`, and its text. -/
structure GoError where
  isEOF : Bool
  isCanceled : Bool
  isDeadlineExceeded : Bool
  text : String
deriving DecidableEq, Repr

namespace Kafkax

/-! ## Data model -/

/-- Modelled from the spec: the package variable `ErrReaderClosed` is used by both
handlers but declared in a file that is not part of the sources; the spec calls it the
terminal `ReaderClosed` error.  It is a plain non-nil error value. -/
def ErrReaderClosed : GoError :=
  { isEOF := false, isCanceled := false, isDeadlineExceeded := false,
    text := "kafka reader closed" }

/-- Modelled from the spec: `kafka.Message` of segmentio/kafka-go, restricted to the
fields the handlers read (`{topic, partition, offset, value}`). -/
structure Message where
  Topic : String
  Partition : Int
  Offset : Int
  Value : List Nat
deriving DecidableEq, Repr

/-- Result of one call into a collaborator: the returned value, the world after the
call, and whether `Close()` was called on the handler while the call was running
(by another goroutine, or by the callee itself). -/
structure Call (α ω : Type) where
  ret : α
  world : ω
  closeCalled : Bool
deriving DecidableEq, Repr

/-- A `slog.Attr` value. -/
inductive Attr where
  | str (s : String)
  | int (i : Int)
  | err (e : GoError)
deriving DecidableEq, Repr

/-- The observable calls a handler makes. -/
inductive Event (T : Type) where
  | fetch (msg : Message) (err : Option GoError)
  | decode (msg : Message) (t : T) (err : Option GoError)
  | process (batch : List Message) (ts : List T) (err : Option GoError)
  | handle (msg : Message) (t : T) (err : Option GoError)
  | commit (msgs : List Message) (err : Option GoError)
  | log (text : String) (attrs : List (String × Attr))
deriving DecidableEq, Repr

/-- The arguments `ctx` and `r` of `ReadMsg`.
`FetchMessage` stands for `r.FetchMessage(c)`: which outcome a call has is the
environment's choice.  `ctxErr` is `ctx.Err()`; `ctx1Err` is `ctx1.Err()` for the child
`ctx1` that `mergeMessage` derives with `context.WithTimeout(ctx, h.interval)`. -/
structure Env (ω : Type) where
  FetchMessage : ω → Call (Message × Option GoError) ω
  CommitMessages : List Message → ω → Call (Option GoError) ω
  ctxErr : ω → Option GoError
  ctx1Err : ω → Option GoError

/-- The mutable part of a handler (the atomic flag `needClosed`) and the world. -/
structure State (ω : Type) where
  needClosed : Bool
  world : ω
deriving DecidableEq, Repr

/-- The body of both `Close` methods: `h.needClosed.Store(true)`. -/
def State.storeTrue {ω : Type} (s : State ω) : State ω :=
  { s with needClosed := true }

/-- The state after a collaborator call returned. -/
def State.after {ω α : Type} (s : State ω) (c : Call α ω) : State ω :=
  if c.closeCalled then State.storeTrue { s with world := c.world }
  else { s with world := c.world }

/-- How a run of a Go function ends within the given fuel. -/
inductive Outcome (α : Type) where
  | returned (v : α)
  | panicked
  | outOfFuel
deriving DecidableEq, Repr

/-- A run: how it ended, the calls it made, the state it left. -/
structure Run (α ω T : Type) where
  outcome : Outcome α
  trace : List (Event T)
  state : State ω
deriving DecidableEq, Repr

/-- The events `pre` happened before the run `r`. -/
def Run.prepend {α ω T : Type} (pre : List (Event T)) (r : Run α ω T) : Run α ω T :=
  { r with trace := pre ++ r.trace }

/-- Go slice indexing `xs[i]`: out of range (none) for a negative or too large index. -/
def index {α : Type} (xs : List α) (i : Int) : Option α :=
  if 0 ≤ i then xs[i.toNat]? else none

/-- Go `make([]E, 0, cap)`: panics (none) when `cap` is negative.  Memory is unbounded in
this model: the upper limit the runtime puts on a capacity is not represented. -/
def makeSlice (α : Type) (cap : Int) : Option (List α) :=
  if 0 ≤ cap then some [] else none

/-! ## BulkHandler -/

/-- The configuration fields of `BulkHandler[T]`. -/
structure BulkHandler (ω T : Type) where
  batchSize : Int
  interval : Int
  decodeFn : List Nat → ω → Call (T × Option GoError) ω
  fn : List Message → List T → ω → Call (Option GoError) ω

namespace BulkHandler

variable {ω T : Type}

/-- `NewBulkHandler`: batch size 10, interval one second (in nanoseconds); the default
JSON decoder is the parameter `jsonDecode`. -/
def NewBulkHandler (jsonDecode : List Nat → ω → Call (T × Option GoError) ω)
    (fn : List Message → List T → ω → Call (Option GoError) ω) : BulkHandler ω T :=
  { batchSize := 10, interval := 1000000000, decodeFn := jsonDecode, fn := fn }

def SetDecodeFn (h : BulkHandler ω T)
    (fn : List Nat → ω → Call (T × Option GoError) ω) : BulkHandler ω T :=
  { h with decodeFn := fn }

def SetBatchSize (h : BulkHandler ω T) (batchSize : Int) : BulkHandler ω T :=
  { h with batchSize := batchSize }

def SetInterval (h : BulkHandler ω T) (interval : Int) : BulkHandler ω T :=
  { h with interval := interval }

/-- `logError`: reads `batch[0]` and `batch[len(batch)-1]`; none is the index panic. -/
def logError (text : String) (err : GoError) (batch : List Message) : Option (Event T) :=
  match index batch 0, index batch ((batch.length : Int) - 1) with
  | some first, some last =>
    some (Event.log text
      [("topic", Attr.str first.Topic),
       ("partition", Attr.int first.Partition),
       ("msg_len", Attr.int batch.length),
       ("start_offset", Attr.int first.Offset),
       ("end_offset", Attr.int last.Offset),
       ("err", Attr.err err)])
  | _, _ => none

/-- The `for i := 0; i < h.batchSize && !done; { ... }` loop of `mergeMessage`, started
with the loop variables `batch`, `ts`, `i`, `done`. -/
def mergeLoop (h : BulkHandler ω T) (env : Env ω) :
    Nat → List Message → List T → Int → Bool → State ω →
      Run (List Message × List T × Option GoError) ω T
  | 0, batch, ts, i, done, s =>
    if i < h.batchSize ∧ done = false then ⟨Outcome.outOfFuel, [], s⟩
    else ⟨Outcome.returned (batch, ts, none), [], s⟩
  | fuel + 1, batch, ts, i, done, s =>
    if i < h.batchSize ∧ done = false then
      let f := env.FetchMessage s.world
      let s1 := s.after f
      let msg := f.ret.1
      match f.ret.2 with
      | some err =>
        if err.isEOF then
          ⟨Outcome.returned (batch, ts, some ErrReaderClosed), [Event.fetch msg (some err)], s1⟩
        else if err.isCanceled then
          ⟨Outcome.returned (batch, ts, env.ctx1Err s1.world),
            [Event.fetch msg (some err)], s1⟩
        else if err.isDeadlineExceeded then
          (mergeLoop h env fuel batch ts i true s1).prepend [Event.fetch msg (some err)]
        else
          (mergeLoop h env fuel batch ts i done s1).prepend
            [Event.fetch msg (some err),
             Event.log "kafka 获取消息失败" [("err", Attr.err err)]]
      | none =>
        let d := h.decodeFn msg.Value s1.world
        let s2 := s1.after d
        match d.ret.2 with
        | some derr =>
          (mergeLoop h env fuel batch ts i done s2).prepend
            [Event.fetch msg none, Event.decode msg d.ret.1 (some derr),
             Event.log "反序列化消息失败"
               [("topic", Attr.str msg.Topic),
                ("partition", Attr.int msg.Partition),
                ("offset", Attr.int msg.Offset),
                ("err", Attr.err derr)]]
        | none =>
          (mergeLoop h env fuel (batch ++ [msg]) (ts ++ [d.ret.1]) (i + 1) done s2).prepend
            [Event.fetch msg none, Event.decode msg d.ret.1 none]
    else ⟨Outcome.returned (batch, ts, none), [], s⟩

/-- `mergeMessage`: the two `make` calls, then the loop from `i = 0`, `done = false`. -/
def mergeMessage (h : BulkHandler ω T) (env : Env ω) (fuel : Nat) (s : State ω) :
    Run (List Message × List T × Option GoError) ω T :=
  match makeSlice Message h.batchSize, makeSlice T h.batchSize with
  | some batch, some ts => mergeLoop h env fuel batch ts 0 false s
  | _, _ => ⟨Outcome.panicked, [], s⟩

/-- `ReadMsg`: the `for !h.needClosed.Load() { ... }` loop. -/
def ReadMsg (h : BulkHandler ω T) (env : Env ω) :
    Nat → State ω → Run (Option GoError) ω T
  | 0, s =>
    if s.needClosed then ⟨Outcome.returned none, [], s⟩ else ⟨Outcome.outOfFuel, [], s⟩
  | fuel + 1, s =>
    if s.needClosed then ⟨Outcome.returned none, [], s⟩
    else
      let m := mergeMessage h env fuel s
      match m.outcome with
      | Outcome.outOfFuel => ⟨Outcome.outOfFuel, m.trace, m.state⟩
      | Outcome.panicked => ⟨Outcome.panicked, m.trace, m.state⟩
      | Outcome.returned (_, _, some err) => ⟨Outcome.returned (some err), m.trace, m.state⟩
      | Outcome.returned (batch, ts, none) =>
        if ts.length = 0 then (ReadMsg h env fuel m.state).prepend m.trace
        else
          let p := h.fn batch ts m.state.world
          let s2 := m.state.after p
          match p.ret with
          | some err =>
            match logError "批量处理消息失败" err batch with
            | none => ⟨Outcome.panicked, m.trace ++ [Event.process batch ts (some err)], s2⟩
            | some entry =>
              (ReadMsg h env fuel s2).prepend
                (m.trace ++ [Event.process batch ts (some err), entry])
          | none =>
            let c := env.CommitMessages batch s2.world
            let s3 := s2.after c
            match c.ret with
            | some cerr =>
              match logError "批量处理消息成功但 kafka 提交消息失败" cerr batch with
              | none =>
                ⟨Outcome.panicked,
                  m.trace ++ [Event.process batch ts none, Event.commit batch (some cerr)], s3⟩
              | some entry =>
                (ReadMsg h env fuel s3).prepend
                  (m.trace ++
                    [Event.process batch ts none, Event.commit batch (some cerr), entry])
            | none =>
              (ReadMsg h env fuel s3).prepend
                (m.trace ++ [Event.process batch ts none, Event.commit batch none])

/-- The part of a cycle of `ReadMsg` that follows `mergeMessage`, given how
`mergeMessage` ended and the state it left; `next` is the rest of the loop.  The trace
holds the events after those of `mergeMessage`. -/
def cycleTail (h : BulkHandler ω T) (env : Env ω)
    (next : State ω → Run (Option GoError) ω T)
    (o : Outcome (List Message × List T × Option GoError)) (st : State ω) :
    Run (Option GoError) ω T :=
  match o with
  | Outcome.outOfFuel => ⟨Outcome.outOfFuel, [], st⟩
  | Outcome.panicked => ⟨Outcome.panicked, [], st⟩
  | Outcome.returned (_, _, some err) => ⟨Outcome.returned (some err), [], st⟩
  | Outcome.returned (batch, ts, none) =>
    if ts.length = 0 then next st
    else
      match (h.fn batch ts st.world).ret with
      | some err =>
        match logError "批量处理消息失败" err batch with
        | none =>
          ⟨Outcome.panicked, [Event.process batch ts (some err)],
            st.after (h.fn batch ts st.world)⟩
        | some entry =>
          (next (st.after (h.fn batch ts st.world))).prepend
            [Event.process batch ts (some err), entry]
      | none =>
        match (env.CommitMessages batch (st.after (h.fn batch ts st.world)).world).ret with
        | some cerr =>
          match logError "批量处理消息成功但 kafka 提交消息失败" cerr batch with
          | none =>
            ⟨Outcome.panicked,
              [Event.process batch ts none, Event.commit batch (some cerr)],
              (st.after (h.fn batch ts st.world)).after
                (env.CommitMessages batch (st.after (h.fn batch ts st.world)).world)⟩
          | some entry =>
            (next ((st.after (h.fn batch ts st.world)).after
              (env.CommitMessages batch (st.after (h.fn batch ts st.world)).world))).prepend
              [Event.process batch ts none, Event.commit batch (some cerr), entry]
        | none =>
          (next ((st.after (h.fn batch ts st.world)).after
            (env.CommitMessages batch (st.after (h.fn batch ts st.world)).world))).prepend
            [Event.process batch ts none, Event.commit batch none]

end BulkHandler

/-! ## Handler -/

/-- The configuration fields of `Handler[T]`. -/
structure Handler (ω T : Type) where
  decodeFn : List Nat → ω → Call (T × Option GoError) ω
  fn : Message → T → ω → Call (Option GoError) ω

namespace Handler

variable {ω T : Type}

def NewHandler (jsonDecode : List Nat → ω → Call (T × Option GoError) ω)
    (fn : Message → T → ω → Call (Option GoError) ω) : Handler ω T :=
  { decodeFn := jsonDecode, fn := fn }

def SetDecodeFn (h : Handler ω T)
    (fn : List Nat → ω → Call (T × Option GoError) ω) : Handler ω T :=
  { h with decodeFn := fn }

/-- `logError` of the single-message handler. -/
def logError (text : String) (err : GoError) (kafkaMsg : Message) : Event T :=
  Event.log text
    [("topic", Attr.str kafkaMsg.Topic),
     ("partition", Attr.int kafkaMsg.Partition),
     ("offset", Attr.int kafkaMsg.Offset),
     ("err", Attr.err err)]

/-- `ReadMsg`: the `for !h.needClosed.Load() { ... }` loop. -/
def ReadMsg (h : Handler ω T) (env : Env ω) :
    Nat → State ω → Run (Option GoError) ω T
  | 0, s =>
    if s.needClosed then ⟨Outcome.returned none, [], s⟩ else ⟨Outcome.outOfFuel, [], s⟩
  | fuel + 1, s =>
    if s.needClosed then ⟨Outcome.returned none, [], s⟩
    else
      let f := env.FetchMessage s.world
      let s1 := s.after f
      let msg := f.ret.1
      match f.ret.2 with
      | some err =>
        if err.isEOF then
          ⟨Outcome.returned (some ErrReaderClosed), [Event.fetch msg (some err)], s1⟩
        else if err.isCanceled ∨ err.isDeadlineExceeded then
          ⟨Outcome.returned (env.ctxErr s1.world), [Event.fetch msg (some err)], s1⟩
        else
          (ReadMsg h env fuel s1).prepend
            [Event.fetch msg (some err), logError "kafka 获取消息失败" err msg]
      | none =>
        let d := h.decodeFn msg.Value s1.world
        let s2 := s1.after d
        match d.ret.2 with
        | some derr =>
          (ReadMsg h env fuel s2).prepend
            [Event.fetch msg none, Event.decode msg d.ret.1 (some derr),
             logError "反序列化消息失败" derr msg]
        | none =>
          let t := d.ret.1
          let p := h.fn msg t s2.world
          let s3 := s2.after p
          match p.ret with
          | some perr =>
            (ReadMsg h env fuel s3).prepend
              [Event.fetch msg none, Event.decode msg t none,
               Event.handle msg t (some perr), logError "处理消息失败" perr msg]
          | none =>
            let c := env.CommitMessages [msg] s3.world
            let s4 := s3.after c
            match c.ret with
            | some cerr =>
              (ReadMsg h env fuel s4).prepend
                [Event.fetch msg none, Event.decode msg t none, Event.handle msg t none,
                 Event.commit [msg] (some cerr),
                 logError "处理消息成功但 kafka 提交消息失败" cerr msg]
            | none =>
              (ReadMsg h env fuel s4).prepend
                [Event.fetch msg none, Event.decode msg t none, Event.handle msg t none,
                 Event.commit [msg] none]

end Handler

/-! ## Reading a trace -/

section Traces

variable {T : Type}

/-- The messages of the fetches that returned a nil error, in order. -/
def fetched : List (Event T) → List Message
  | [] => []
  | Event.fetch m none :: rest => m :: fetched rest
  | _ :: rest => fetched rest

/-- The decode calls, in order: the message, the value and the error returned. -/
def decodes : List (Event T) → List (Message × T × Option GoError)
  | [] => []
  | Event.decode m t e :: rest => (m, t, e) :: decodes rest
  | _ :: rest => decodes rest

/-- The decode calls that returned a nil error. -/
def accepted (tr : List (Event T)) : List (Message × T × Option GoError) :=
  (decodes tr).filter (fun d => d.2.2.isNone)

/-- A call of the process function or of `CommitMessages`. -/
def Event.isSink : Event T → Bool
  | Event.process _ _ _ => true
  | Event.handle _ _ _ => true
  | Event.commit _ _ => true
  | _ => false

end Traces

end Kafkax

namespace Kafkax

/-! ## What the collaborators deliver to an accumulation loop -/

section Items

variable {ω T : Type}

/-- The process and commit calls of a trace, a single-message call `fn(msg, t)` written
as the call on the one-element batch. -/
def sinks : List (Event T) → List (Event T)
  | [] => []
  | Event.process b ts e :: rest => Event.process b ts e :: sinks rest
  | Event.handle m t e :: rest => Event.process [m] [t] e :: sinks rest
  | Event.commit b e :: rest => Event.commit b e :: sinks rest
  | _ :: rest => sinks rest

/-- Every process and commit call of a trace has a non-empty batch. -/
def SinksNonempty (tr : List (Event T)) : Prop :=
  ∀ ev ∈ tr,
    (∀ b ts e, ev = Event.process b ts e → b ≠ [] ∧ ts ≠ [] ∧ b.length = ts.length) ∧
    (∀ b e, ev = Event.commit b e → b ≠ [])

end Items

/-! ## A concrete environment

The world is the list of fetch outcomes still to come; a fetch on the empty list reports
the source closed.  A value decodes to its length, the empty value fails to decode.
The process function fails on a batch whose first offset is 13 and calls `Close()` on a
batch whose first offset is 99; the commit fails on a batch whose first offset is 7. -/

namespace Sample

def errEOF : GoError := ⟨true, false, false, "EOF"⟩

def errCanceled : GoError := ⟨false, true, false, "context canceled"⟩

def errDeadline : GoError := ⟨false, false, true, "context deadline exceeded"⟩

def errTransient : GoError := ⟨false, false, false, "connection reset"⟩

def errDecode : GoError := ⟨false, false, false, "unexpected end of JSON input"⟩

def errProcess : GoError := ⟨false, false, false, "process failed"⟩

def errCommit : GoError := ⟨false, false, false, "commit failed"⟩

def msg (offset : Int) (value : List Nat) : Message :=
  { Topic := "orders", Partition := 0, Offset := offset, Value := value }

abbrev World := List (Message × Option GoError)

def fetch : World → Call (Message × Option GoError) World
  | [] => ⟨(msg 0 [], some errEOF), [], false⟩
  | o :: rest => ⟨o, rest, false⟩

def firstOffset : List Message → Int
  | [] => 0
  | m :: _ => m.Offset

def commit {ω : Type} (batch : List Message) (w : ω) : Call (Option GoError) ω :=
  ⟨if firstOffset batch = 7 then some errCommit else none, w, false⟩

def decode {ω : Type} (value : List Nat) (w : ω) : Call (Nat × Option GoError) ω :=
  ⟨(value.length, if value = [] then some errDecode else none), w, false⟩

def process {ω : Type} (batch : List Message) (_ts : List Nat) (w : ω) :
    Call (Option GoError) ω :=
  ⟨if firstOffset batch = 13 then some errProcess else none, w,
    decide (firstOffset batch = 99)⟩

def processOne {ω : Type} (m : Message) (t : Nat) (w : ω) : Call (Option GoError) ω :=
  process [m] [t] w

/-- The caller's context is canceled throughout when `canceled` holds. -/
def env (canceled : Bool) : Env World :=
  { FetchMessage := fetch
    CommitMessages := commit
    ctxErr := fun _ => if canceled then some errCanceled else none
    ctx1Err := fun _ => if canceled then some errCanceled else none }

def bulk {ω : Type} (batchSize : Int) : BulkHandler ω Nat :=
  (BulkHandler.NewBulkHandler decode process).SetBatchSize batchSize

def single {ω : Type} : Handler ω Nat := Handler.NewHandler decode processOne

def start {ω : Type} (w : ω) : State ω := { needClosed := false, world := w }

/-- A reader on which `Close()` is called while the fetch of offset 99 is running. -/
def fetchClosing : World → Call (Message × Option GoError) World
  | [] => ⟨(msg 0 [], some errEOF), [], false⟩
  | o :: rest => ⟨o, rest, decide (o.1.Offset = 99)⟩

def envClosing : Env World :=
  { FetchMessage := fetchClosing
    CommitMessages := commit
    ctxErr := fun _ => none
    ctx1Err := fun _ => none }

end Sample

end Kafkax

/-! # Rate-limit delegation -/

namespace limiter

/-- The interface `limiter.Limiter` of github.com/udugong/limiter:
`Limit(ctx, key) (bool, error)`, a state transformer on the world. -/
structure Limiter (ω : Type) where
  Limit : String → ω → (Bool × Option GoError) × ω

end limiter

namespace Gormx

abbrev OperationType := String

def OperationCreate : OperationType := "create"

def OperationUpdate : OperationType := "update"

def OperationDelete : OperationType := "delete"

def OperationQuery : OperationType := "query"

def OperationRaw : OperationType := "raw"

def OperationRow : OperationType := "row"

/-- The six operation types the callbacks are registered for. -/
def operations : List OperationType :=
  [OperationCreate, OperationUpdate, OperationDelete, OperationQuery, OperationRaw,
   OperationRow]

/-- The text of `ErrGormTooManyRequests`. -/
def ErrGormTooManyRequests : String := "gorm 请求过多"

/-- The fields `globalLimiter` and `limiters` of `RateLimitCallbacks`; the map is the
function that answers the lookup `c.limiters[op]`. -/
structure RateLimitCallbacks (ω : Type) where
  globalLimiter : limiter.Limiter ω
  limiters : OperationType → Option (limiter.Limiter ω)

/-- The part of `*gorm.DB` the callback touches: the errors added with `AddError`,
oldest first. -/
structure DB where
  Error : List String
deriving DecidableEq, Repr

def DB.AddError (db : DB) (err : String) : DB :=
  { db with Error := db.Error ++ [err] }

/-- What one call of `limit` leaves: the database handle, the world, the log entries. -/
structure Limited (ω : Type) where
  db : DB
  world : ω
  logs : List (String × GoError)

variable {ω : Type}

/-- `WithOperationLimiter`: `c.limiters[op] = l`. -/
def WithOperationLimiter (op : OperationType) (l : limiter.Limiter ω) :
    RateLimitCallbacks ω → RateLimitCallbacks ω :=
  fun c => { c with limiters := fun o => if o = op then some l else c.limiters o }

/-- `NewRateLimitCallbacks`: an empty map, then the options in order. -/
def NewRateLimitCallbacks (l : limiter.Limiter ω)
    (opts : List (RateLimitCallbacks ω → RateLimitCallbacks ω)) : RateLimitCallbacks ω :=
  opts.foldl (fun c opt => opt c) { globalLimiter := l, limiters := fun _ => none }

namespace RateLimitCallbacks

/-- `key`: a `strings.Builder` that receives the base key and, for a non-empty suffix,
an underscore and the suffix. -/
def key (_c : RateLimitCallbacks ω) (suffix : String) : String :=
  let b := ""
  let b := b ++ "gorm_db_limiter"
  if suffix ≠ "" then (b ++ "_") ++ suffix else b

/-- `limit`. -/
def limit (c : RateLimitCallbacks ω) (db : DB) (op : OperationType) (w : ω) : Limited ω :=
  let ls : limiter.Limiter ω × String :=
    match c.limiters op with
    | some lim => (lim, op)
    | none => (c.globalLimiter, "")
  let r := ls.1.Limit (c.key ls.2) w
  let limited := r.1.1
  let st : Bool × List (String × GoError) :=
    match r.1.2 with
    | some err => (true, [("限流器异常", err)])
    | none => (limited, [])
  if st.1 then
    { db := db.AddError (op ++ " 操作触发限流; err: " ++ ErrGormTooManyRequests),
      world := r.2, logs := st.2 }
  else { db := db, world := r.2, logs := st.2 }

def beforeCreate (c : RateLimitCallbacks ω) (db : DB) (w : ω) : Limited ω :=
  c.limit db OperationCreate w

def beforeUpdate (c : RateLimitCallbacks ω) (db : DB) (w : ω) : Limited ω :=
  c.limit db OperationUpdate w

def beforeDelete (c : RateLimitCallbacks ω) (db : DB) (w : ω) : Limited ω :=
  c.limit db OperationDelete w

def beforeQuery (c : RateLimitCallbacks ω) (db : DB) (w : ω) : Limited ω :=
  c.limit db OperationQuery w

def beforeRaw (c : RateLimitCallbacks ω) (db : DB) (w : ω) : Limited ω :=
  c.limit db OperationRaw w

def beforeRow (c : RateLimitCallbacks ω) (db : DB) (w : ω) : Limited ω :=
  c.limit db OperationRow w

end RateLimitCallbacks

end Gormx

namespace Slidewindow

/-- A gRPC status error: the code (`codes.ResourceExhausted` is 8) and the message. -/
structure Status where
  code : Nat
  message : String
deriving DecidableEq, Repr

def ResourceExhausted : Nat := 8

/-- The fields `limiter` and `key` of `Limiter`. -/
structure Limiter (ω : Type) where
  limiter : limiter.Limiter ω
  key : String

/-- What one call of the interceptor leaves: `(resp, err)`, the world, the requests the
handler was invoked with, the log entries. -/
structure Intercepted (ω Req Resp : Type) where
  resp : Option Resp
  err : Option Status
  world : ω
  handled : List Req
  logs : List (String × GoError)

variable {ω Req Resp : Type}

def NewLimiter (lim : limiter.Limiter ω) (key : String) : Limiter ω :=
  { limiter := lim, key := key }

/-- The closure that `BuildUnaryServerInterceptor` returns, applied to `req` and
`handler`. -/
def Limiter.BuildUnaryServerInterceptor (l : Limiter ω) (req : Req)
    (handler : Req → ω → (Option Resp × Option Status) × ω) (w : ω) :
    Intercepted ω Req Resp :=
  let r := l.limiter.Limit l.key w
  match r.1.2 with
  | some err =>
    { resp := none, err := some ⟨ResourceExhausted, "触发限流"⟩, world := r.2,
      handled := [], logs := [("限流器异常", err)] }
  | none =>
    if r.1.1 then
      { resp := none, err := some ⟨ResourceExhausted, "触发限流"⟩, world := r.2,
        handled := [], logs := [] }
    else
      let out := handler req r.2
      { resp := out.1.1, err := out.1.2, world := out.2, handled := [req], logs := [] }

end Slidewindow

/-! ## Concrete limiters

The world counts the calls made so far. -/

namespace RateSample

/-- A limiter that admits the first call and limits every later one. -/
def once : limiter.Limiter Nat :=
  { Limit := fun _ n => ((decide (1 ≤ n), none), n + 1) }

/-- A limiter that fails on the key "gorm_db_limiter_create" and admits every other
key. -/
def broken : limiter.Limiter Nat :=
  { Limit := fun k n =>
      ((false, if k = "gorm_db_limiter_create" then
          some ⟨false, false, false, "redis: connection refused"⟩ else none), n + 1) }

def callbacks : Gormx.RateLimitCallbacks Nat :=
  Gormx.NewRateLimitCallbacks once [Gormx.WithOperationLimiter Gormx.OperationCreate broken]

def emptyDB : Gormx.DB := { Error := [] }

def interceptorLimiter : Slidewindow.Limiter Nat := Slidewindow.NewLimiter once "grpc"

def echo (req : String) (n : Nat) : (Option String × Option Slidewindow.Status) × Nat :=
  ((some req, none), n + 10)

end RateSample

/-! # Properties -/

namespace Kafkax

variable {ω T : Type}

@[simp] theorem Run.prepend_trace {α : Type} (pre : List (Event T)) (r : Run α ω T) :
    (r.prepend pre).trace = pre ++ r.trace := rfl

theorem decodes_append (a b : List (Event T)) : decodes (a ++ b) = decodes a ++ decodes b := by
  induction a with
  | nil => rfl
  | cons e a ih => cases e <;> simp [decodes, ih]

theorem fetched_append (a b : List (Event T)) : fetched (a ++ b) = fetched a ++ fetched b := by
  induction a with
  | nil => rfl
  | cons e a ih =>
    cases e with
    | fetch m err => cases err <;> simp [fetched, ih]
    | _ => simp [fetched, ih]

theorem accepted_append (a b : List (Event T)) :
    accepted (a ++ b) = accepted a ++ accepted b := by
  simp [accepted, decodes_append]

theorem after_needClosed {α : Type} (s : State ω) (c : Call α ω) :
    (s.after c).needClosed = (s.needClosed || c.closeCalled) := by
  unfold State.after State.storeTrue
  cases h : c.closeCalled <;> simp

theorem after_closed_of_call {α : Type} (s : State ω) (c : Call α ω)
    (hc : c.closeCalled = true) : (s.after c).needClosed = true := by
  simp [after_needClosed, hc]

theorem after_of_quiet {α : Type} (s : State ω) (c : Call α ω)
    (hc : c.closeCalled = false) : s.after c = { s with world := c.world } := by
  simp [State.after, hc]

/-! ### Splitting a trace at an event -/

theorem no_sink_append (a b : List (Event T)) (ha : ∀ ev ∈ a, ev.isSink = false)
    (hb : ∀ ev ∈ b, ev.isSink = false) : ∀ ev ∈ a ++ b, ev.isSink = false := by
  intro ev hev
  rcases List.mem_append.mp hev with h1 | h1
  · exact ha ev h1
  · exact hb ev h1

namespace BulkHandler

theorem mergeLoop_batch (h : BulkHandler ω T) (env : Env ω) (fuel : Nat) :
    ∀ (batch : List Message) (ts : List T) (i : Int) (done : Bool) (s : State ω)
      (b : List Message) (t : List T) (e : Option GoError),
      (mergeLoop h env fuel batch ts i done s).outcome = Outcome.returned (b, t, e) →
      b = batch ++ (accepted (mergeLoop h env fuel batch ts i done s).trace).map (fun d => d.1) ∧
      t = ts ++ (accepted (mergeLoop h env fuel batch ts i done s).trace).map (fun d => d.2.1) := by
  induction fuel with
  | zero =>
    intro batch ts i done s b t e
    simp only [mergeLoop]
    split <;> simp [accepted, decodes]
    intro h1 h2 _; simp [h1, h2]
  | succ fuel ih =>
    intro batch ts i done s b t e
    simp only [mergeLoop]
    split
    · split
      · split
        · simp [accepted, decodes]; intro h1 h2 _; simp [h1, h2]
        · split
          · simp [accepted, decodes]; intro h1 h2 _; simp [h1, h2]
          · split
            · intro hr
              have := ih _ _ _ _ _ _ _ _ hr
              simpa [accepted_append, accepted, decodes] using this
            · intro hr
              have := ih _ _ _ _ _ _ _ _ hr
              simpa [accepted_append, accepted, decodes] using this
      · split
        · intro hr
          have := ih _ _ _ _ _ _ _ _ hr
          simpa [accepted_append, accepted, decodes] using this
        · intro hr
          have := ih _ _ _ _ _ _ _ _ hr
          simpa [accepted_append, accepted, decodes] using this
    · simp [accepted, decodes]; intro h1 h2 _; simp [h1, h2]

theorem mergeLoop_decodes (h : BulkHandler ω T) (env : Env ω) (fuel : Nat) :
    ∀ (batch : List Message) (ts : List T) (i : Int) (done : Bool) (s : State ω),
      (decodes (mergeLoop h env fuel batch ts i done s).trace).map (fun d => d.1) =
          fetched (mergeLoop h env fuel batch ts i done s).trace ∧
      (∀ d ∈ decodes (mergeLoop h env fuel batch ts i done s).trace,
          ∃ w, (h.decodeFn d.1.Value w).ret = (d.2.1, d.2.2)) ∧
      (∀ ev ∈ (mergeLoop h env fuel batch ts i done s).trace, ev.isSink = false) := by
  induction fuel with
  | zero =>
    intro batch ts i done s
    simp only [mergeLoop]
    split <;> simp [decodes, fetched]
  | succ fuel ih =>
    intro batch ts i done s
    simp only [mergeLoop]
    split
    · split
      · split
        · simp [decodes, fetched, Event.isSink]
        · split
          · simp [decodes, fetched, Event.isSink]
          · split
            · have := ih batch ts i true (s.after (env.FetchMessage s.world))
              simpa [decodes_append, fetched_append, decodes, fetched, Event.isSink] using this
            · have := ih batch ts i done (s.after (env.FetchMessage s.world))
              simpa [decodes_append, fetched_append, decodes, fetched, Event.isSink] using this
      · rename_i hf
        split
        · rename_i derr hd
          have := ih batch ts i done ((s.after (env.FetchMessage s.world)).after
            (h.decodeFn (env.FetchMessage s.world).ret.1.Value
              (s.after (env.FetchMessage s.world)).world))
          simp only [Run.prepend_trace, decodes_append, fetched_append, decodes, fetched,
            List.map_append, List.map_cons, List.map_nil, List.mem_append, List.mem_cons,
            List.singleton_append, List.cons_append, List.nil_append]
          refine ⟨by simp [this.1], ?_, ?_⟩
          · rintro d (hd1 | hd1)
            · exact ⟨_, by rw [hd1]; exact Prod.ext rfl hd⟩
            · exact this.2.1 d hd1
          · rintro ev (hev | hev | hev | hev)
            · rw [hev]; rfl
            · rw [hev]; rfl
            · rw [hev]; rfl
            · exact this.2.2 ev hev
        · rename_i hd
          have := ih (batch ++ [(env.FetchMessage s.world).ret.1])
            (ts ++ [(h.decodeFn (env.FetchMessage s.world).ret.1.Value
              (s.after (env.FetchMessage s.world)).world).ret.1]) (i + 1) done
            ((s.after (env.FetchMessage s.world)).after
            (h.decodeFn (env.FetchMessage s.world).ret.1.Value
              (s.after (env.FetchMessage s.world)).world))
          simp only [Run.prepend_trace, decodes_append, fetched_append, decodes, fetched,
            List.map_append, List.map_cons, List.map_nil, List.mem_append, List.mem_cons,
            List.singleton_append, List.cons_append, List.nil_append]
          refine ⟨by simp [this.1], ?_, ?_⟩
          · rintro d (hd1 | hd1)
            · exact ⟨_, by rw [hd1]; exact Prod.ext rfl hd⟩
            · exact this.2.1 d hd1
          · rintro ev (hev | hev | hev)
            · rw [hev]; rfl
            · rw [hev]; rfl
            · exact this.2.2 ev hev
    · simp [decodes, fetched]

theorem mergeMessage_eq_loop (h : BulkHandler ω T) (env : Env ω) (fuel : Nat) (s : State ω)
    (hp : (mergeMessage h env fuel s).outcome ≠ Outcome.panicked) :
    mergeMessage h env fuel s = mergeLoop h env fuel [] [] 0 false s := by
  unfold mergeMessage makeSlice at *
  split_ifs at * with hc
  · rfl
  · exact absurd rfl hp


theorem mergeLoop_mono (h : BulkHandler ω T) (env : Env ω) (fuel : Nat) :
    ∀ (batch : List Message) (ts : List T) (i : Int) (done : Bool) (s : State ω),
      (mergeLoop h env fuel batch ts i done s).outcome ≠ Outcome.outOfFuel →
      mergeLoop h env (fuel + 1) batch ts i done s = mergeLoop h env fuel batch ts i done s := by
  induction fuel with
  | zero =>
    intro batch ts i done s
    simp only [mergeLoop]
    split
    · simp
    · intro _; rfl
  | succ fuel ih =>
    intro batch ts i done s
    rw [mergeLoop.eq_2 h env batch ts i done s (fuel + 1), mergeLoop.eq_2 h env batch ts i done s fuel]
    dsimp only
    split
    · split
      · split
        · intro _; rfl
        · split
          · intro _; rfl
          · split
            · intro hr
              rw [ih _ _ _ _ _ (by simpa using hr)]
            · intro hr
              rw [ih _ _ _ _ _ (by simpa using hr)]
      · split
        · intro hr
          rw [ih _ _ _ _ _ (by simpa using hr)]
        · intro hr
          rw [ih _ _ _ _ _ (by simpa using hr)]
    · intro _; rfl

theorem mergeLoop_mono_le (h : BulkHandler ω T) (env : Env ω) (fuel fuel' : Nat)
    (hle : fuel ≤ fuel') (batch : List Message) (ts : List T) (i : Int) (done : Bool)
    (s : State ω)
    (hr : (mergeLoop h env fuel batch ts i done s).outcome ≠ Outcome.outOfFuel) :
    mergeLoop h env fuel' batch ts i done s = mergeLoop h env fuel batch ts i done s := by
  induction hle with
  | refl => rfl
  | step hle ih =>
    rw [mergeLoop_mono h env _ batch ts i done s (by rw [ih]; exact hr), ih]

/-! ### One pass of the accumulation loop -/

theorem mergeLoop_eof (h : BulkHandler ω T) (env : Env ω) (fuel : Nat)
    (batch : List Message) (ts : List T) (i : Int) (s : State ω) (err : GoError)
    (hi : i < h.batchSize) (hf : (env.FetchMessage s.world).ret.2 = some err)
    (he : err.isEOF = true) :
    mergeLoop h env (fuel + 1) batch ts i false s =
      ⟨Outcome.returned (batch, ts, some ErrReaderClosed),
        [Event.fetch (env.FetchMessage s.world).ret.1 (some err)],
        s.after (env.FetchMessage s.world)⟩ := by
  rw [mergeLoop.eq_2]
  simp [hi, hf, he]

theorem mergeLoop_canceled (h : BulkHandler ω T) (env : Env ω) (fuel : Nat)
    (batch : List Message) (ts : List T) (i : Int) (s : State ω) (err : GoError)
    (hi : i < h.batchSize) (hf : (env.FetchMessage s.world).ret.2 = some err)
    (he : err.isEOF = false) (hc : err.isCanceled = true) :
    mergeLoop h env (fuel + 1) batch ts i false s =
      ⟨Outcome.returned (batch, ts, env.ctx1Err (s.after (env.FetchMessage s.world)).world),
        [Event.fetch (env.FetchMessage s.world).ret.1 (some err)],
        s.after (env.FetchMessage s.world)⟩ := by
  rw [mergeLoop.eq_2]
  simp [hi, hf, he, hc]

theorem ReadMsg_closed (h : BulkHandler ω T) (env : Env ω) (fuel : Nat) (s : State ω)
    (hs : s.needClosed = true) :
    ReadMsg h env fuel s = ⟨Outcome.returned none, [], s⟩ := by
  cases fuel <;> simp [ReadMsg, hs]

theorem ReadMsg_zero (h : BulkHandler ω T) (env : Env ω) (s : State ω)
    (hs : s.needClosed = false) :
    ReadMsg h env 0 s = ⟨Outcome.outOfFuel, [], s⟩ := by
  simp [ReadMsg, hs]

theorem ReadMsg_stop (h : BulkHandler ω T) (env : Env ω) (fuel : Nat) (s : State ω)
    (b : List Message) (t : List T) (e : GoError)
    (hs : s.needClosed = false)
    (hm : (mergeMessage h env fuel s).outcome = Outcome.returned (b, t, some e)) :
    ReadMsg h env (fuel + 1) s =
      ⟨Outcome.returned (some e), (mergeMessage h env fuel s).trace,
        (mergeMessage h env fuel s).state⟩ := by
  rw [ReadMsg.eq_2]
  simp only [hs, Bool.false_eq_true, if_false, hm]

theorem ReadMsg_outOfFuel (h : BulkHandler ω T) (env : Env ω) (fuel : Nat) (s : State ω)
    (hs : s.needClosed = false)
    (hm : (mergeMessage h env fuel s).outcome = Outcome.outOfFuel) :
    ReadMsg h env (fuel + 1) s =
      ⟨Outcome.outOfFuel, (mergeMessage h env fuel s).trace,
        (mergeMessage h env fuel s).state⟩ := by
  rw [ReadMsg.eq_2]
  simp only [hs, Bool.false_eq_true, if_false, hm]

theorem ReadMsg_panicked (h : BulkHandler ω T) (env : Env ω) (fuel : Nat) (s : State ω)
    (hs : s.needClosed = false)
    (hm : (mergeMessage h env fuel s).outcome = Outcome.panicked) :
    ReadMsg h env (fuel + 1) s =
      ⟨Outcome.panicked, (mergeMessage h env fuel s).trace,
        (mergeMessage h env fuel s).state⟩ := by
  rw [ReadMsg.eq_2]
  simp only [hs, Bool.false_eq_true, if_false, hm]

theorem ReadMsg_empty (h : BulkHandler ω T) (env : Env ω) (fuel : Nat) (s : State ω)
    (b : List Message) (t : List T)
    (hs : s.needClosed = false)
    (hm : (mergeMessage h env fuel s).outcome = Outcome.returned (b, t, none))
    (ht : t = []) :
    ReadMsg h env (fuel + 1) s =
      (ReadMsg h env fuel (mergeMessage h env fuel s).state).prepend
        (mergeMessage h env fuel s).trace := by
  rw [ReadMsg.eq_2]
  simp only [hs, Bool.false_eq_true, if_false, hm, ht, List.length_nil, if_true]

theorem ReadMsg_failed (h : BulkHandler ω T) (env : Env ω) (fuel : Nat) (s : State ω)
    (b : List Message) (t : List T) (err : GoError) (entry : Event T)
    (hs : s.needClosed = false)
    (hm : (mergeMessage h env fuel s).outcome = Outcome.returned (b, t, none))
    (ht : t ≠ [])
    (hp : (h.fn b t (mergeMessage h env fuel s).state.world).ret = some err)
    (hl : logError "批量处理消息失败" err b = some entry) :
    ReadMsg h env (fuel + 1) s =
      (ReadMsg h env fuel
        ((mergeMessage h env fuel s).state.after
          (h.fn b t (mergeMessage h env fuel s).state.world))).prepend
        ((mergeMessage h env fuel s).trace ++ [Event.process b t (some err), entry]) := by
  rw [ReadMsg.eq_2]
  have ht' : ¬ t.length = 0 := by simpa using ht
  simp only [hs, Bool.false_eq_true, if_false, hm, ht', hp, hl]

theorem ReadMsg_uncommitted (h : BulkHandler ω T) (env : Env ω) (fuel : Nat) (s : State ω)
    (b : List Message) (t : List T) (cerr : GoError) (entry : Event T)
    (hs : s.needClosed = false)
    (hm : (mergeMessage h env fuel s).outcome = Outcome.returned (b, t, none))
    (ht : t ≠ [])
    (hp : (h.fn b t (mergeMessage h env fuel s).state.world).ret = none)
    (hc : (env.CommitMessages b ((mergeMessage h env fuel s).state.after
      (h.fn b t (mergeMessage h env fuel s).state.world)).world).ret = some cerr)
    (hl : logError "批量处理消息成功但 kafka 提交消息失败" cerr b = some entry) :
    ReadMsg h env (fuel + 1) s =
      (ReadMsg h env fuel
        (((mergeMessage h env fuel s).state.after
          (h.fn b t (mergeMessage h env fuel s).state.world)).after
          (env.CommitMessages b ((mergeMessage h env fuel s).state.after
            (h.fn b t (mergeMessage h env fuel s).state.world)).world))).prepend
        ((mergeMessage h env fuel s).trace ++
          [Event.process b t none, Event.commit b (some cerr), entry]) := by
  rw [ReadMsg.eq_2]
  have ht' : ¬ t.length = 0 := by simpa using ht
  simp only [hs, Bool.false_eq_true, if_false, hm, ht', hp, hc, hl]

theorem ReadMsg_committed (h : BulkHandler ω T) (env : Env ω) (fuel : Nat) (s : State ω)
    (b : List Message) (t : List T)
    (hs : s.needClosed = false)
    (hm : (mergeMessage h env fuel s).outcome = Outcome.returned (b, t, none))
    (ht : t ≠ [])
    (hp : (h.fn b t (mergeMessage h env fuel s).state.world).ret = none)
    (hc : (env.CommitMessages b ((mergeMessage h env fuel s).state.after
      (h.fn b t (mergeMessage h env fuel s).state.world)).world).ret = none) :
    ReadMsg h env (fuel + 1) s =
      (ReadMsg h env fuel
        (((mergeMessage h env fuel s).state.after
          (h.fn b t (mergeMessage h env fuel s).state.world)).after
          (env.CommitMessages b ((mergeMessage h env fuel s).state.after
            (h.fn b t (mergeMessage h env fuel s).state.world)).world))).prepend
        ((mergeMessage h env fuel s).trace ++
          [Event.process b t none, Event.commit b none]) := by
  rw [ReadMsg.eq_2]
  have ht' : ¬ t.length = 0 := by simpa using ht
  simp only [hs, Bool.false_eq_true, if_false, hm, ht', hp, hc]

theorem ReadMsg_failed_panics (h : BulkHandler ω T) (env : Env ω) (fuel : Nat) (s : State ω)
    (b : List Message) (t : List T) (err : GoError)
    (hs : s.needClosed = false)
    (hm : (mergeMessage h env fuel s).outcome = Outcome.returned (b, t, none))
    (ht : t ≠ [])
    (hp : (h.fn b t (mergeMessage h env fuel s).state.world).ret = some err)
    (hl : (logError "批量处理消息失败" err b : Option (Event T)) = none) :
    ReadMsg h env (fuel + 1) s =
      ⟨Outcome.panicked, (mergeMessage h env fuel s).trace ++ [Event.process b t (some err)],
        (mergeMessage h env fuel s).state.after
          (h.fn b t (mergeMessage h env fuel s).state.world)⟩ := by
  rw [ReadMsg.eq_2]
  have ht' : ¬ t.length = 0 := by simpa using ht
  simp only [hs, Bool.false_eq_true, if_false, hm, ht', hp, hl]

theorem ReadMsg_uncommitted_panics (h : BulkHandler ω T) (env : Env ω) (fuel : Nat)
    (s : State ω) (b : List Message) (t : List T) (cerr : GoError)
    (hs : s.needClosed = false)
    (hm : (mergeMessage h env fuel s).outcome = Outcome.returned (b, t, none))
    (ht : t ≠ [])
    (hp : (h.fn b t (mergeMessage h env fuel s).state.world).ret = none)
    (hc : (env.CommitMessages b ((mergeMessage h env fuel s).state.after
      (h.fn b t (mergeMessage h env fuel s).state.world)).world).ret = some cerr)
    (hl : (logError "批量处理消息成功但 kafka 提交消息失败" cerr b : Option (Event T)) = none) :
    ReadMsg h env (fuel + 1) s =
      ⟨Outcome.panicked,
        (mergeMessage h env fuel s).trace ++
          [Event.process b t none, Event.commit b (some cerr)],
        ((mergeMessage h env fuel s).state.after
          (h.fn b t (mergeMessage h env fuel s).state.world)).after
          (env.CommitMessages b ((mergeMessage h env fuel s).state.after
            (h.fn b t (mergeMessage h env fuel s).state.world)).world)⟩ := by
  rw [ReadMsg.eq_2]
  have ht' : ¬ t.length = 0 := by simpa using ht
  simp only [hs, Bool.false_eq_true, if_false, hm, ht', hp, hc, hl]

/-- Case analysis and induction over the cycles of `ReadMsg`. -/
theorem ReadMsg_induct (h : BulkHandler ω T) (env : Env ω)
    (motive : Nat → State ω → Run (Option GoError) ω T → Prop)
    (closed : ∀ fuel s, s.needClosed = true → motive fuel s ⟨Outcome.returned none, [], s⟩)
    (zero : ∀ s, s.needClosed = false → motive 0 s ⟨Outcome.outOfFuel, [], s⟩)
    (stop : ∀ fuel s b t e, s.needClosed = false →
      (mergeMessage h env fuel s).outcome = Outcome.returned (b, t, some e) →
      motive (fuel + 1) s ⟨Outcome.returned (some e), (mergeMessage h env fuel s).trace,
        (mergeMessage h env fuel s).state⟩)
    (starved : ∀ fuel s, s.needClosed = false →
      (mergeMessage h env fuel s).outcome = Outcome.outOfFuel →
      motive (fuel + 1) s ⟨Outcome.outOfFuel, (mergeMessage h env fuel s).trace,
        (mergeMessage h env fuel s).state⟩)
    (crashed : ∀ fuel s, s.needClosed = false →
      (mergeMessage h env fuel s).outcome = Outcome.panicked →
      motive (fuel + 1) s ⟨Outcome.panicked, (mergeMessage h env fuel s).trace,
        (mergeMessage h env fuel s).state⟩)
    (empty : ∀ fuel s b, s.needClosed = false →
      (mergeMessage h env fuel s).outcome = Outcome.returned (b, [], none) →
      motive fuel (mergeMessage h env fuel s).state
        (ReadMsg h env fuel (mergeMessage h env fuel s).state) →
      motive (fuel + 1) s ((ReadMsg h env fuel (mergeMessage h env fuel s).state).prepend
        (mergeMessage h env fuel s).trace))
    (failed : ∀ fuel s b t err entry, s.needClosed = false →
      (mergeMessage h env fuel s).outcome = Outcome.returned (b, t, none) → t ≠ [] →
      (h.fn b t (mergeMessage h env fuel s).state.world).ret = some err →
      logError "批量处理消息失败" err b = some entry →
      motive fuel ((mergeMessage h env fuel s).state.after
          (h.fn b t (mergeMessage h env fuel s).state.world))
        (ReadMsg h env fuel ((mergeMessage h env fuel s).state.after
          (h.fn b t (mergeMessage h env fuel s).state.world))) →
      motive (fuel + 1) s ((ReadMsg h env fuel
        ((mergeMessage h env fuel s).state.after
          (h.fn b t (mergeMessage h env fuel s).state.world))).prepend
        ((mergeMessage h env fuel s).trace ++ [Event.process b t (some err), entry])))
    (failedPanic : ∀ fuel s b t err, s.needClosed = false →
      (mergeMessage h env fuel s).outcome = Outcome.returned (b, t, none) → t ≠ [] →
      (h.fn b t (mergeMessage h env fuel s).state.world).ret = some err →
      (logError "批量处理消息失败" err b : Option (Event T)) = none →
      motive (fuel + 1) s ⟨Outcome.panicked,
        (mergeMessage h env fuel s).trace ++ [Event.process b t (some err)],
        (mergeMessage h env fuel s).state.after
          (h.fn b t (mergeMessage h env fuel s).state.world)⟩)
    (uncommitted : ∀ fuel s b t cerr entry, s.needClosed = false →
      (mergeMessage h env fuel s).outcome = Outcome.returned (b, t, none) → t ≠ [] →
      (h.fn b t (mergeMessage h env fuel s).state.world).ret = none →
      (env.CommitMessages b ((mergeMessage h env fuel s).state.after
        (h.fn b t (mergeMessage h env fuel s).state.world)).world).ret = some cerr →
      logError "批量处理消息成功但 kafka 提交消息失败" cerr b = some entry →
      motive fuel (((mergeMessage h env fuel s).state.after
          (h.fn b t (mergeMessage h env fuel s).state.world)).after
          (env.CommitMessages b ((mergeMessage h env fuel s).state.after
            (h.fn b t (mergeMessage h env fuel s).state.world)).world))
        (ReadMsg h env fuel (((mergeMessage h env fuel s).state.after
          (h.fn b t (mergeMessage h env fuel s).state.world)).after
          (env.CommitMessages b ((mergeMessage h env fuel s).state.after
            (h.fn b t (mergeMessage h env fuel s).state.world)).world))) →
      motive (fuel + 1) s ((ReadMsg h env fuel
        (((mergeMessage h env fuel s).state.after
          (h.fn b t (mergeMessage h env fuel s).state.world)).after
          (env.CommitMessages b ((mergeMessage h env fuel s).state.after
            (h.fn b t (mergeMessage h env fuel s).state.world)).world))).prepend
        ((mergeMessage h env fuel s).trace ++
          [Event.process b t none, Event.commit b (some cerr), entry])))
    (uncommittedPanic : ∀ fuel s b t cerr, s.needClosed = false →
      (mergeMessage h env fuel s).outcome = Outcome.returned (b, t, none) → t ≠ [] →
      (h.fn b t (mergeMessage h env fuel s).state.world).ret = none →
      (env.CommitMessages b ((mergeMessage h env fuel s).state.after
        (h.fn b t (mergeMessage h env fuel s).state.world)).world).ret = some cerr →
      (logError "批量处理消息成功但 kafka 提交消息失败" cerr b : Option (Event T)) = none →
      motive (fuel + 1) s ⟨Outcome.panicked,
        (mergeMessage h env fuel s).trace ++
          [Event.process b t none, Event.commit b (some cerr)],
        ((mergeMessage h env fuel s).state.after
          (h.fn b t (mergeMessage h env fuel s).state.world)).after
          (env.CommitMessages b ((mergeMessage h env fuel s).state.after
            (h.fn b t (mergeMessage h env fuel s).state.world)).world)⟩)
    (committed : ∀ fuel s b t, s.needClosed = false →
      (mergeMessage h env fuel s).outcome = Outcome.returned (b, t, none) → t ≠ [] →
      (h.fn b t (mergeMessage h env fuel s).state.world).ret = none →
      (env.CommitMessages b ((mergeMessage h env fuel s).state.after
        (h.fn b t (mergeMessage h env fuel s).state.world)).world).ret = none →
      motive fuel (((mergeMessage h env fuel s).state.after
          (h.fn b t (mergeMessage h env fuel s).state.world)).after
          (env.CommitMessages b ((mergeMessage h env fuel s).state.after
            (h.fn b t (mergeMessage h env fuel s).state.world)).world))
        (ReadMsg h env fuel (((mergeMessage h env fuel s).state.after
          (h.fn b t (mergeMessage h env fuel s).state.world)).after
          (env.CommitMessages b ((mergeMessage h env fuel s).state.after
            (h.fn b t (mergeMessage h env fuel s).state.world)).world))) →
      motive (fuel + 1) s ((ReadMsg h env fuel
        (((mergeMessage h env fuel s).state.after
          (h.fn b t (mergeMessage h env fuel s).state.world)).after
          (env.CommitMessages b ((mergeMessage h env fuel s).state.after
            (h.fn b t (mergeMessage h env fuel s).state.world)).world))).prepend
        ((mergeMessage h env fuel s).trace ++
          [Event.process b t none, Event.commit b none]))) :
    ∀ fuel s, motive fuel s (ReadMsg h env fuel s) := by
  intro fuel
  induction fuel with
  | zero =>
    intro s
    cases hs : s.needClosed
    · rw [ReadMsg_zero h env s hs]; exact zero s hs
    · rw [ReadMsg_closed h env 0 s hs]; exact closed 0 s hs
  | succ fuel ih =>
    intro s
    cases hs : s.needClosed
    swap
    · rw [ReadMsg_closed h env _ s hs]; exact closed _ s hs
    cases hm : (mergeMessage h env fuel s).outcome with
    | outOfFuel => rw [ReadMsg_outOfFuel h env fuel s hs hm]; exact starved fuel s hs hm
    | panicked => rw [ReadMsg_panicked h env fuel s hs hm]; exact crashed fuel s hs hm
    | returned v =>
      obtain ⟨b, t, e⟩ := v
      cases e with
      | some e => rw [ReadMsg_stop h env fuel s b t e hs hm]; exact stop fuel s b t e hs hm
      | none =>
        by_cases ht : t = []
        · subst ht
          rw [ReadMsg_empty h env fuel s b [] hs hm rfl]
          exact empty fuel s b hs hm (ih _)
        cases hp : (h.fn b t (mergeMessage h env fuel s).state.world).ret with
        | some err =>
          cases hl : (logError "批量处理消息失败" err b : Option (Event T)) with
          | none =>
            rw [ReadMsg_failed_panics h env fuel s b t err hs hm ht hp hl]
            exact failedPanic fuel s b t err hs hm ht hp hl
          | some entry =>
            rw [ReadMsg_failed h env fuel s b t err entry hs hm ht hp hl]
            exact failed fuel s b t err entry hs hm ht hp hl (ih _)
        | none =>
          cases hc : (env.CommitMessages b ((mergeMessage h env fuel s).state.after
            (h.fn b t (mergeMessage h env fuel s).state.world)).world).ret with
          | some cerr =>
            cases hl : (logError "批量处理消息成功但 kafka 提交消息失败" cerr b :
                Option (Event T)) with
            | none =>
              rw [ReadMsg_uncommitted_panics h env fuel s b t cerr hs hm ht hp hc hl]
              exact uncommittedPanic fuel s b t cerr hs hm ht hp hc hl
            | some entry =>
              rw [ReadMsg_uncommitted h env fuel s b t cerr entry hs hm ht hp hc hl]
              exact uncommitted fuel s b t cerr entry hs hm ht hp hc hl (ih _)
          | none =>
            rw [ReadMsg_committed h env fuel s b t hs hm ht hp hc]
            exact committed fuel s b t hs hm ht hp hc (ih _)

/-! ### What `mergeMessage` returns -/

theorem mergeMessage_cases (h : BulkHandler ω T) (env : Env ω) (fuel : Nat) (s : State ω) :
    mergeMessage h env fuel s = mergeLoop h env fuel [] [] 0 false s ∨
    mergeMessage h env fuel s = ⟨Outcome.panicked, [], s⟩ := by
  unfold mergeMessage makeSlice
  split_ifs <;> simp

theorem mergeMessage_no_sink (h : BulkHandler ω T) (env : Env ω) (fuel : Nat) (s : State ω) :
    ∀ ev ∈ (mergeMessage h env fuel s).trace, ev.isSink = false := by
  rcases mergeMessage_cases h env fuel s with hm | hm
  · rw [hm]; exact (mergeLoop_decodes h env fuel [] [] 0 false s).2.2
  · rw [hm]; simp

theorem mergeMessage_batch (h : BulkHandler ω T) (env : Env ω) (fuel : Nat) (s : State ω)
    (b : List Message) (t : List T) (e : Option GoError)
    (hm : (mergeMessage h env fuel s).outcome = Outcome.returned (b, t, e)) :
    b = (accepted (mergeMessage h env fuel s).trace).map (fun d => d.1) ∧
    t = (accepted (mergeMessage h env fuel s).trace).map (fun d => d.2.1) := by
  rcases mergeMessage_cases h env fuel s with hc | hc
  · rw [hc] at hm ⊢
    simpa using mergeLoop_batch h env fuel [] [] 0 false s b t e hm
  · rw [hc] at hm; cases hm

theorem mergeMessage_length (h : BulkHandler ω T) (env : Env ω) (fuel : Nat) (s : State ω)
    (b : List Message) (t : List T) (e : Option GoError)
    (hm : (mergeMessage h env fuel s).outcome = Outcome.returned (b, t, e)) :
    b.length = t.length := by
  obtain ⟨hb, ht⟩ := mergeMessage_batch h env fuel s b t e hm
  rw [hb, ht]; simp

theorem mergeMessage_nonempty (h : BulkHandler ω T) (env : Env ω) (fuel : Nat) (s : State ω)
    (b : List Message) (t : List T) (e : Option GoError)
    (hm : (mergeMessage h env fuel s).outcome = Outcome.returned (b, t, e)) (ht : t ≠ []) :
    b ≠ [] := by
  have hl := mergeMessage_length h env fuel s b t e hm
  intro hb
  rw [hb] at hl
  exact ht (List.length_eq_zero.mp hl.symm)

theorem sinksNonempty_of_no_sink (tr : List (Event T))
    (hn : ∀ ev ∈ tr, ev.isSink = false) : SinksNonempty tr := by
  intro ev hev
  have := hn ev hev
  refine ⟨?_, ?_⟩
  · intro b ts e he; rw [he] at this; cases this
  · intro b e he; rw [he] at this; cases this

theorem sinksNonempty_append (a b : List (Event T)) (ha : SinksNonempty a)
    (hb : SinksNonempty b) : SinksNonempty (a ++ b) := by
  intro ev hev
  rcases List.mem_append.mp hev with h1 | h1
  · exact ha ev h1
  · exact hb ev h1

theorem readMsg_sinksNonempty (h : BulkHandler ω T) (env : Env ω) (fuel : Nat) (s : State ω) :
    SinksNonempty (ReadMsg h env fuel s).trace := by
  have hmerge : ∀ fuel s, SinksNonempty (mergeMessage h env fuel s).trace :=
    fun fuel s => sinksNonempty_of_no_sink _ (mergeMessage_no_sink h env fuel s)
  have hproc : ∀ fuel s (b : List Message) (t : List T) (e e' : Option GoError),
      (mergeMessage h env fuel s).outcome = Outcome.returned (b, t, e') → t ≠ [] →
      SinksNonempty [Event.process b t e] := by
    intro fuel s b t e e' hm ht ev hev
    rw [List.mem_singleton] at hev
    subst hev
    refine ⟨?_, ?_⟩
    · intro b' ts' e'' he
      cases he
      exact ⟨mergeMessage_nonempty h env fuel s _ _ e' hm ht, ht,
        mergeMessage_length h env fuel s _ _ e' hm⟩
    · intro b' e'' he; cases he
  have hcommit : ∀ fuel s (b : List Message) (t : List T) (e e' : Option GoError),
      (mergeMessage h env fuel s).outcome = Outcome.returned (b, t, e') → t ≠ [] →
      SinksNonempty ([Event.commit b e] : List (Event T)) := by
    intro fuel s b t e e' hm ht ev hev
    rw [List.mem_singleton] at hev
    subst hev
    refine ⟨?_, ?_⟩
    · intro b' ts' e'' he; cases he
    · intro b' e'' he
      cases he
      exact mergeMessage_nonempty h env fuel s _ _ e' hm ht
  have hlog : ∀ (text : String) (err : GoError) (b : List Message) (entry : Event T),
      logError text err b = some entry → SinksNonempty [entry] := by
    intro text err b entry hl
    apply sinksNonempty_of_no_sink
    intro ev hev
    rw [List.mem_singleton] at hev
    subst hev
    unfold logError at hl
    split at hl
    · cases hl; rfl
    · cases hl
  refine ReadMsg_induct h env (fun _ _ r => SinksNonempty r.trace) ?_ ?_ ?_ ?_ ?_ ?_ ?_ ?_ ?_
    ?_ ?_ fuel s
  · intro fuel s _; intro ev hev; cases hev
  · intro s _; intro ev hev; cases hev
  · intro fuel s b t e _ _; exact hmerge fuel s
  · intro fuel s _ _; exact hmerge fuel s
  · intro fuel s _ _; exact hmerge fuel s
  · intro fuel s b _ _ ih
    exact sinksNonempty_append _ _ (hmerge fuel s) ih
  · intro fuel s b t err entry _ hm ht _ hl ih
    refine sinksNonempty_append _ _ (sinksNonempty_append _ _ (hmerge fuel s) ?_) ih
    exact sinksNonempty_append [_] [_] (hproc fuel s b t _ _ hm ht) (hlog _ _ _ _ hl)
  · intro fuel s b t err _ hm ht _ _
    exact sinksNonempty_append _ _ (hmerge fuel s) (hproc fuel s b t _ _ hm ht)
  · intro fuel s b t cerr entry _ hm ht _ _ hl ih
    refine sinksNonempty_append _ _ (sinksNonempty_append _ _ (hmerge fuel s) ?_) ih
    exact sinksNonempty_append [_] [_, _] (hproc fuel s b t _ _ hm ht)
      (sinksNonempty_append [_] [_] (hcommit fuel s b t _ _ hm ht) (hlog _ _ _ _ hl))
  · intro fuel s b t cerr _ hm ht _ _ _
    refine sinksNonempty_append _ _ (hmerge fuel s) ?_
    exact sinksNonempty_append [_] [_] (hproc fuel s b t _ _ hm ht)
      (hcommit fuel s b t _ _ hm ht)
  · intro fuel s b t _ hm ht _ _ ih
    refine sinksNonempty_append _ _ (sinksNonempty_append _ _ (hmerge fuel s) ?_) ih
    exact sinksNonempty_append [_] [_] (hproc fuel s b t _ _ hm ht)
      (hcommit fuel s b t _ _ hm ht)

theorem logError_is_log (text : String) (err : GoError) (b : List Message) (entry : Event T)
    (hl : logError text err b = some entry) : ∃ attrs, entry = Event.log text attrs := by
  unfold logError at hl
  split at hl
  · cases hl; exact ⟨_, rfl⟩
  · cases hl

end BulkHandler

namespace Handler

/-! ### One iteration of the single-message `ReadMsg` -/

theorem single_eof (h : Handler ω T) (env : Env ω) (fuel : Nat) (s : State ω)
    (f : Call (Message × Option GoError) ω)
    (err : GoError)
    (hfe : env.FetchMessage s.world = f)
    (hs : s.needClosed = false)
    (hf : f.ret.2 = some err)
    (he : err.isEOF = true) :
    ReadMsg h env (fuel + 1) s =
      ⟨Outcome.returned (some ErrReaderClosed), [Event.fetch f.ret.1 (some err)],
        (s.after f)⟩ := by
  subst hfe
  rw [ReadMsg.eq_2]
  simp only [hs, hf, he, Bool.false_eq_true, if_false, if_true, or_self, or_true,
    true_or]


theorem single_canceled (h : Handler ω T) (env : Env ω) (fuel : Nat) (s : State ω)
    (f : Call (Message × Option GoError) ω)
    (err : GoError)
    (hfe : env.FetchMessage s.world = f)
    (hs : s.needClosed = false)
    (hf : f.ret.2 = some err)
    (he : err.isEOF = false)
    (hc : err.isCanceled = true ∨ err.isDeadlineExceeded = true) :
    ReadMsg h env (fuel + 1) s =
      ⟨Outcome.returned (env.ctxErr (s.after f).world), [Event.fetch f.ret.1 (some err)],
        (s.after f)⟩ := by
  subst hfe
  rw [ReadMsg.eq_2]
  simp only [hs, hf, he, hc, Bool.false_eq_true, if_false, if_true, or_self, or_true,
    true_or]


end Handler

/-! ## Commit only after successful processing -/

/-- C5. A cycle of `BulkHandler.ReadMsg` in which `mergeMessage` returns an empty batch
with no error makes no process and no commit call and goes straight to the next
iteration; over every run, the process function and `CommitMessages` are only ever called
with a non-empty batch. -/
theorem empty_batch_skipped (h : BulkHandler ω T) (env : Env ω) :
    (∀ fuel s b t, s.needClosed = false →
      (h.mergeMessage env fuel s).outcome = Outcome.returned (b, t, none) → b = [] →
      h.ReadMsg env (fuel + 1) s =
        (h.ReadMsg env fuel (h.mergeMessage env fuel s).state).prepend
          (h.mergeMessage env fuel s).trace ∧
      ∀ ev ∈ (h.mergeMessage env fuel s).trace, ev.isSink = false) ∧
    (∀ fuel s, ∀ ev ∈ (h.ReadMsg env fuel s).trace,
      (∀ b ts e, ev = Event.process b ts e → b ≠ [] ∧ ts ≠ [] ∧ b.length = ts.length) ∧
      (∀ b e, ev = Event.commit b e → b ≠ [])) := by
  refine ⟨?_, fun fuel s => BulkHandler.readMsg_sinksNonempty h env fuel s⟩
  intro fuel s b t hs hm hb
  have ht : t = [] := by
    have hl := BulkHandler.mergeMessage_length h env fuel s b t none hm
    rw [hb] at hl
    exact List.length_eq_zero.mp hl.symm
  exact ⟨BulkHandler.ReadMsg_empty h env fuel s b t hs hm ht,
    BulkHandler.mergeMessage_no_sink h env fuel s⟩

/-- Witness of C5: the only message fetched before the deadline fails to decode, the
batch is empty, and the cycle makes no process or commit call. -/
theorem empty_batch_skipped_witness :
    (Sample.bulk 3).ReadMsg (Sample.env false) 3
        (Sample.start [(Sample.msg 1 [], none), (Sample.msg 0 [], some Sample.errDeadline)]) =
      (((Sample.bulk 3).ReadMsg (Sample.env false) 2 (Sample.start [])).prepend
        ((Sample.bulk 3).mergeMessage (Sample.env false) 2
          (Sample.start [(Sample.msg 1 [], none),
            (Sample.msg 0 [], some Sample.errDeadline)])).trace) ∧
    ∀ ev ∈ ((Sample.bulk 3).mergeMessage (Sample.env false) 2
          (Sample.start [(Sample.msg 1 [], none),
            (Sample.msg 0 [], some Sample.errDeadline)])).trace, ev.isSink = false :=
  (empty_batch_skipped (Sample.bulk 3) (Sample.env false)).1 2
    (Sample.start [(Sample.msg 1 [], none), (Sample.msg 0 [], some Sample.errDeadline)])
    [] [] rfl rfl rfl

theorem mergeMessage_error (h : BulkHandler ω T) (env : Env ω) (fuel : Nat) :
    ∀ (batch : List Message) (ts : List T) (i : Int) (done : Bool) (s : State ω)
      (b : List Message) (t : List T) (e : Option GoError),
      (h.mergeLoop env fuel batch ts i done s).outcome = Outcome.returned (b, t, e) →
      e = none ∨ e = some ErrReaderClosed ∨
        e = env.ctx1Err (h.mergeLoop env fuel batch ts i done s).state.world := by
  induction fuel with
  | zero =>
    intro batch ts i done s b t e
    simp only [BulkHandler.mergeLoop]
    split
    · intro hr; cases hr
    · intro hr; cases hr; exact Or.inl rfl
  | succ fuel ih =>
    intro batch ts i done s b t e
    simp only [BulkHandler.mergeLoop]
    split
    · split
      · split
        · intro hr; cases hr; exact Or.inr (Or.inl rfl)
        · split
          · intro hr; cases hr; exact Or.inr (Or.inr rfl)
          · split
            · intro hr; exact ih _ _ _ _ _ _ _ _ hr
            · intro hr; exact ih _ _ _ _ _ _ _ _ hr
      · split
        · intro hr; exact ih _ _ _ _ _ _ _ _ hr
        · intro hr; exact ih _ _ _ _ _ _ _ _ hr
    · intro hr; cases hr; exact Or.inl rfl

theorem readMsg_batches_merged (h : BulkHandler ω T) (env : Env ω) (fuel : Nat)
    (s : State ω) :
    ∀ ev ∈ (h.ReadMsg env fuel s).trace, ∀ b ts e, ev = Event.process b ts e →
      ∃ fuel' s', (h.mergeMessage env fuel' s').outcome = Outcome.returned (b, ts, none) := by
  have hmerge : ∀ fuel s, ∀ ev ∈ (h.mergeMessage env fuel s).trace, ∀ b ts e,
      ev = Event.process b ts e →
      ∃ fuel' s', (h.mergeMessage env fuel' s').outcome = Outcome.returned (b, ts, none) := by
    intro fuel s ev hev b ts e he
    have := BulkHandler.mergeMessage_no_sink h env fuel s ev hev
    rw [he] at this; cases this
  have hlog : ∀ (text : String) (err : GoError) (b0 : List Message) (entry : Event T),
      BulkHandler.logError text err b0 = some entry →
      ∀ b ts e, entry ≠ Event.process b ts e := by
    intro text err b0 entry hl b ts e he
    obtain ⟨attrs, ha⟩ := BulkHandler.logError_is_log text err b0 entry hl
    rw [ha] at he; cases he
  refine BulkHandler.ReadMsg_induct h env (fun _ _ r => ∀ ev ∈ r.trace, ∀ b ts e,
    ev = Event.process b ts e →
      ∃ fuel' s', (h.mergeMessage env fuel' s').outcome = Outcome.returned (b, ts, none))
    ?_ ?_ ?_ ?_ ?_ ?_ ?_ ?_ ?_ ?_ ?_ fuel s
  · intro fuel s _ ev hev; cases hev
  · intro s _ ev hev; cases hev
  · intro fuel s b t e _ _; exact hmerge fuel s
  · intro fuel s _ _; exact hmerge fuel s
  · intro fuel s _ _; exact hmerge fuel s
  · intro fuel s b _ _ ih ev hev
    rcases List.mem_append.mp hev with h1 | h1
    · exact hmerge fuel s ev h1
    · exact ih ev h1
  · intro fuel s b t err entry _ hm _ _ hl ih ev hev b' ts' e' he
    simp only [Run.prepend_trace, List.mem_append, List.mem_cons, List.mem_singleton,
      List.not_mem_nil, or_false] at hev
    rcases hev with (h1 | h1 | h1) | h1
    · exact hmerge fuel s ev h1 b' ts' e' he
    · rw [h1] at he; cases he; exact ⟨fuel, s, hm⟩
    · rw [h1] at he; exact absurd he (hlog _ _ _ _ hl b' ts' e')
    · exact ih ev h1 b' ts' e' he
  · intro fuel s b t err _ hm _ _ _ ev hev b' ts' e' he
    simp only [List.mem_append, List.mem_singleton] at hev
    rcases hev with h1 | h1
    · exact hmerge fuel s ev h1 b' ts' e' he
    · rw [h1] at he; cases he; exact ⟨fuel, s, hm⟩
  · intro fuel s b t cerr entry _ hm _ _ _ hl ih ev hev b' ts' e' he
    simp only [Run.prepend_trace, List.mem_append, List.mem_cons, List.mem_singleton,
      List.not_mem_nil, or_false] at hev
    rcases hev with (h1 | h1 | h1 | h1) | h1
    · exact hmerge fuel s ev h1 b' ts' e' he
    · rw [h1] at he; cases he; exact ⟨fuel, s, hm⟩
    · rw [h1] at he; cases he
    · rw [h1] at he; exact absurd he (hlog _ _ _ _ hl b' ts' e')
    · exact ih ev h1 b' ts' e' he
  · intro fuel s b t cerr _ hm _ _ _ _ ev hev b' ts' e' he
    simp only [List.mem_append, List.mem_cons, List.mem_singleton,
      List.not_mem_nil, or_false] at hev
    rcases hev with h1 | h1 | h1
    · exact hmerge fuel s ev h1 b' ts' e' he
    · rw [h1] at he; cases he; exact ⟨fuel, s, hm⟩
    · rw [h1] at he; cases he
  · intro fuel s b t _ hm _ _ _ ih ev hev b' ts' e' he
    simp only [Run.prepend_trace, List.mem_append, List.mem_cons, List.mem_singleton,
      List.not_mem_nil, or_false] at hev
    rcases hev with (h1 | h1 | h1) | h1
    · exact hmerge fuel s ev h1 b' ts' e' he
    · rw [h1] at he; cases he; exact ⟨fuel, s, hm⟩
    · rw [h1] at he; cases he
    · exact ih ev h1 b' ts' e' he

/-- C2. On every return path of `BulkHandler.mergeMessage` (nil error, `ErrReaderClosed`,
the error of `ctx1`) the returned message slice and value slice have equal length and are
index-aligned: pairing them gives, in order, exactly the decode calls of that call that
returned a nil error, each with the value `decodeFn` returned for the message value; the
decode calls are, in order, the messages fetched with a nil error.  So the batch is the
in-order subsequence of the fetched messages whose decode succeeded, a message whose
decode fails is in neither slice, and every batch passed to the process function is a
batch that `mergeMessage` returned. -/
theorem merge_batch_aligned (h : BulkHandler ω T) (env : Env ω) :
    (∀ fuel s b t e,
      (h.mergeMessage env fuel s).outcome = Outcome.returned (b, t, e) →
      b.length = t.length ∧
      b.zip t = ((decodes (h.mergeMessage env fuel s).trace).filter
        (fun d => d.2.2.isNone)).map (fun d => (d.1, d.2.1)) ∧
      (decodes (h.mergeMessage env fuel s).trace).map (fun d => d.1) =
        fetched (h.mergeMessage env fuel s).trace ∧
      (∀ d ∈ decodes (h.mergeMessage env fuel s).trace,
        ∃ w, (h.decodeFn d.1.Value w).ret = (d.2.1, d.2.2)) ∧
      b.Sublist (fetched (h.mergeMessage env fuel s).trace) ∧
      (e = none ∨ e = some ErrReaderClosed ∨
        e = env.ctx1Err (h.mergeMessage env fuel s).state.world)) ∧
    (∀ fuel s, ∀ ev ∈ (h.ReadMsg env fuel s).trace, ∀ b ts e, ev = Event.process b ts e →
      ∃ fuel' s', (h.mergeMessage env fuel' s').outcome = Outcome.returned (b, ts, none)) := by
  refine ⟨?_, fun fuel s => readMsg_batches_merged h env fuel s⟩
  intro fuel s b t e hm
  obtain ⟨hb, ht⟩ := BulkHandler.mergeMessage_batch h env fuel s b t e hm
  have hloop : h.mergeMessage env fuel s = h.mergeLoop env fuel [] [] 0 false s := by
    rcases BulkHandler.mergeMessage_cases h env fuel s with hc | hc
    · exact hc
    · rw [hc] at hm; cases hm
  obtain ⟨hd1, hd2, _⟩ := BulkHandler.mergeLoop_decodes h env fuel [] [] 0 false s
  rw [← hloop] at hd1 hd2
  refine ⟨BulkHandler.mergeMessage_length h env fuel s b t e hm, ?_, hd1, hd2, ?_, ?_⟩
  · rw [hb, ht]
    simp only [accepted]
    rw [List.zip_map, List.zip_eq_zipWith]
    simp [List.zipWith_same, List.map_map, Function.comp_def]
  · rw [hb, ← hd1]
    exact (List.filter_sublist _).map _
  · rw [hloop] at hm ⊢
    exact mergeMessage_error h env fuel [] [] 0 false s b t e hm

/-- Witness of C2: three fetched messages, the second fails to decode; the batch of size 2
is the first and the third. -/
theorem merge_batch_aligned_witness :
    [Sample.msg 1 [1], Sample.msg 3 [5, 5]].zip [1, 2] =
      ((decodes ((Sample.bulk 2).mergeMessage (Sample.env false) 3
        (Sample.start [(Sample.msg 1 [1], none), (Sample.msg 2 [], none),
          (Sample.msg 3 [5, 5], none)])).trace).filter
        (fun d => d.2.2.isNone)).map (fun d => (d.1, d.2.1)) :=
  ((merge_batch_aligned (Sample.bulk 2) (Sample.env false)).1 3
    (Sample.start [(Sample.msg 1 [1], none), (Sample.msg 2 [], none),
      (Sample.msg 3 [5, 5], none)])
    [Sample.msg 1 [1], Sample.msg 3 [5, 5]] [1, 2] none rfl).2.1


/-! ## Terminal fetch outcomes -/

/-- C4. Whenever a fetch of the accumulation loop reports the source closed (an error
matching `io.EOF`), `mergeMessage` returns at once with the batch accumulated so far and
`ErrReaderClosed`; whenever it reports cancellation (an error matching
`context.Canceled`) and the caller's cancellation has fired, so that `ctx1.Err()` is a
non-nil error, `mergeMessage` returns at once with the batch accumulated so far and that
error.  `BulkHandler.ReadMsg` returns the non-nil error of `mergeMessage` to its caller
without calling the process function or `CommitMessages` in that cycle.
`Handler.ReadMsg` returns `ErrReaderClosed`, respectively the non-nil `ctx.Err()`, on
these fetch outcomes. -/
theorem terminal_fetch_stops (hb : BulkHandler ω T) (hs : Handler ω T) (env : Env ω) :
    (∀ fuel batch ts i s err, i < hb.batchSize →
      (env.FetchMessage s.world).ret.2 = some err → err.isEOF = true →
      hb.mergeLoop env (fuel + 1) batch ts i false s =
        ⟨Outcome.returned (batch, ts, some ErrReaderClosed),
          [Event.fetch (env.FetchMessage s.world).ret.1 (some err)],
          s.after (env.FetchMessage s.world)⟩) ∧
    (∀ fuel batch ts i s err ce, i < hb.batchSize →
      (env.FetchMessage s.world).ret.2 = some err → err.isEOF = false →
      err.isCanceled = true →
      env.ctx1Err (s.after (env.FetchMessage s.world)).world = some ce →
      hb.mergeLoop env (fuel + 1) batch ts i false s =
        ⟨Outcome.returned (batch, ts, some ce),
          [Event.fetch (env.FetchMessage s.world).ret.1 (some err)],
          s.after (env.FetchMessage s.world)⟩) ∧
    (∀ fuel s b t e, s.needClosed = false →
      (hb.mergeMessage env fuel s).outcome = Outcome.returned (b, t, some e) →
      hb.ReadMsg env (fuel + 1) s =
        ⟨Outcome.returned (some e), (hb.mergeMessage env fuel s).trace,
          (hb.mergeMessage env fuel s).state⟩ ∧
      ∀ ev ∈ (hb.mergeMessage env fuel s).trace, ev.isSink = false) ∧
    (∀ fuel s err, s.needClosed = false →
      (env.FetchMessage s.world).ret.2 = some err → err.isEOF = true →
      hs.ReadMsg env (fuel + 1) s =
        ⟨Outcome.returned (some ErrReaderClosed),
          [Event.fetch (env.FetchMessage s.world).ret.1 (some err)],
          s.after (env.FetchMessage s.world)⟩) ∧
    (∀ fuel s err ce, s.needClosed = false →
      (env.FetchMessage s.world).ret.2 = some err → err.isEOF = false →
      err.isCanceled = true →
      env.ctxErr (s.after (env.FetchMessage s.world)).world = some ce →
      hs.ReadMsg env (fuel + 1) s =
        ⟨Outcome.returned (some ce),
          [Event.fetch (env.FetchMessage s.world).ret.1 (some err)],
          s.after (env.FetchMessage s.world)⟩) := by
  refine ⟨?_, ?_, ?_, ?_, ?_⟩
  · intro fuel batch ts i s err hi hf he
    exact BulkHandler.mergeLoop_eof hb env fuel batch ts i s err hi hf he
  · intro fuel batch ts i s err ce hi hf he hc hce
    rw [BulkHandler.mergeLoop_canceled hb env fuel batch ts i s err hi hf he hc, hce]
  · intro fuel s b t e hs' hm
    exact ⟨BulkHandler.ReadMsg_stop hb env fuel s b t e hs' hm,
      BulkHandler.mergeMessage_no_sink hb env fuel s⟩
  · intro fuel s err hs' hf he
    exact Handler.single_eof hs env fuel s _ err rfl hs' hf he
  · intro fuel s err ce hs' hf he hc hce
    rw [Handler.single_canceled hs env fuel s _ err rfl hs' hf he (Or.inl hc), hce]

/-- Witness of C4: one message is accumulated, then the caller cancels; `ReadMsg` returns
the cancellation error and the partial batch is neither processed nor committed. -/
theorem terminal_fetch_stops_witness :
    (Sample.bulk 3).ReadMsg (Sample.env true) 4
        (Sample.start [(Sample.msg 1 [1], none), (Sample.msg 0 [], some Sample.errCanceled)]) =
      ⟨Outcome.returned (some Sample.errCanceled),
        [Event.fetch (Sample.msg 1 [1]) none, Event.decode (Sample.msg 1 [1]) 1 none,
         Event.fetch (Sample.msg 0 []) (some Sample.errCanceled)],
        Sample.start []⟩ ∧
    Sample.single.ReadMsg (Sample.env true) 1
        (Sample.start [(Sample.msg 0 [], some Sample.errCanceled)]) =
      ⟨Outcome.returned (some Sample.errCanceled),
        [Event.fetch (Sample.msg 0 []) (some Sample.errCanceled)], Sample.start []⟩ ∧
    Sample.single.ReadMsg (Sample.env false) 1 (Sample.start []) =
      ⟨Outcome.returned (some ErrReaderClosed),
        [Event.fetch (Sample.msg 0 []) (some Sample.errEOF)], Sample.start []⟩ :=
  ⟨((terminal_fetch_stops (Sample.bulk 3) Sample.single (Sample.env true)).2.2.1 3
      (Sample.start [(Sample.msg 1 [1], none), (Sample.msg 0 [], some Sample.errCanceled)])
      [Sample.msg 1 [1]] [1] Sample.errCanceled rfl rfl).1,
    (terminal_fetch_stops (Sample.bulk 3) Sample.single (Sample.env true)).2.2.2.2 0
      (Sample.start [(Sample.msg 0 [], some Sample.errCanceled)]) Sample.errCanceled
      Sample.errCanceled rfl rfl rfl rfl rfl,
    (terminal_fetch_stops (Sample.bulk 3) Sample.single (Sample.env false)).2.2.2.1 0
      (Sample.start []) Sample.errEOF rfl rfl rfl⟩


/-! ## Cooperative shutdown -/

theorem prepend_nil {α : Type} (r : Run α ω T) : r.prepend [] = r := rfl

theorem cycleTail_starved (h : BulkHandler ω T) (env : Env ω)
    (next : State ω → Run (Option GoError) ω T) (st : State ω) :
    (h.cycleTail env next Outcome.outOfFuel st).outcome = Outcome.outOfFuel := rfl

/-- When `Close()` is called while a transiently failing fetch is running, the
single-message handler stops at once and the bulk handler with batch size 1 still fetches
and processes the next message. -/
theorem close_during_failed_fetch_diverges :
    sinks (Sample.single.ReadMsg Sample.envClosing 10
      (Sample.start [(Sample.msg 99 [], some Sample.errTransient),
        (Sample.msg 1 [1], none)])).trace = [] ∧
    sinks ((Sample.bulk 1).ReadMsg Sample.envClosing 10
      (Sample.start [(Sample.msg 99 [], some Sample.errTransient),
        (Sample.msg 1 [1], none)])).trace =
      [Event.process [Sample.msg 1 [1]] [1] none, Event.commit [Sample.msg 1 [1]] none] := by
  decide

/-- When a fetch error matches `context.Canceled` while the contexts report no error, the
single-message handler returns nil and the bulk handler with batch size 1 goes on. -/
theorem uncancelled_context_diverges :
    (Sample.single.ReadMsg (Sample.env false) 10
      (Sample.start [(Sample.msg 0 [], some Sample.errCanceled),
        (Sample.msg 1 [1], none)])).outcome = Outcome.returned none ∧
    ((Sample.bulk 1).ReadMsg (Sample.env false) 10
      (Sample.start [(Sample.msg 0 [], some Sample.errCanceled),
        (Sample.msg 1 [1], none)])).outcome = Outcome.returned (some ErrReaderClosed) ∧
    sinks ((Sample.bulk 1).ReadMsg (Sample.env false) 10
      (Sample.start [(Sample.msg 0 [], some Sample.errCanceled),
        (Sample.msg 1 [1], none)])).trace =
      [Event.process [Sample.msg 1 [1]] [1] none, Event.commit [Sample.msg 1 [1]] none] := by
  decide

end Kafkax

/-! ## Rate-limit delegation -/

namespace Gormx

variable {ω : Type}

theorem key_empty (c : RateLimitCallbacks ω) : c.key "" = "gorm_db_limiter" := rfl

theorem key_nonempty (c : RateLimitCallbacks ω) (s : String) (hs : s ≠ "") :
    c.key s = "gorm_db_limiter_" ++ s := by
  simp only [RateLimitCallbacks.key, hs, ne_eq, not_false_eq_true, if_true]
  rfl

/-- C10. `RateLimitCallbacks.key` returns "gorm_db_limiter" for the empty suffix and
"gorm_db_limiter_" followed by the suffix for every non-empty suffix (so
"gorm_db_limiter_create" for `string(OperationCreate)`), whatever the receiver is; the
keys of the six operation types are pairwise distinct and differ from the global key. -/
theorem key_spec (c c' : RateLimitCallbacks ω) :
    c.key "" = "gorm_db_limiter" ∧
    (∀ s : String, s ≠ "" → c.key s = "gorm_db_limiter_" ++ s) ∧
    c.key OperationCreate = "gorm_db_limiter_create" ∧
    (∀ s : String, c.key s = c'.key s) ∧
    (operations.map c.key).Nodup ∧
    (∀ op ∈ operations, c.key op ≠ c.key "") := by
  have hne : ∀ s : String, s ≠ "" → c.key s = "gorm_db_limiter_" ++ s := key_nonempty c
  have hop : ∀ op ∈ operations, op ≠ "" := by decide
  refine ⟨rfl, hne, ?_, fun s => rfl, ?_, ?_⟩
  · rfl
  · have : operations.map c.key = operations.map (fun s => "gorm_db_limiter_" ++ s) :=
      List.map_congr_left (fun op hmem => hne op (hop op hmem))
    rw [this]
    decide
  · intro op hmem
    rw [hne op (hop op hmem)]
    have : c.key "" = "gorm_db_limiter" := rfl
    rw [this]
    revert op
    decide

end Gormx

namespace Gormx

variable {ω : Type}

/-- Witness of C10: the key of the update callbacks, on the sample callbacks. -/
theorem key_spec_witness :
    RateSample.callbacks.key OperationUpdate = "gorm_db_limiter_" ++ "update" :=
  (key_spec RateSample.callbacks RateSample.callbacks).2.1 OperationUpdate (by decide)

theorem AddError_ne (db : DB) (err : String) : db.AddError err ≠ db := by
  intro h
  have := congrArg (fun d => d.Error.length) h
  simp [DB.AddError] at this

theorem limit_eq (c : RateLimitCallbacks ω) (db : DB) (op : OperationType) (w : ω)
    (use : limiter.Limiter ω) (k : String)
    (hk : (match c.limiters op with
      | some lim => (lim, c.key op)
      | none => (c.globalLimiter, c.key "")) = (use, k)) :
    (c.limit db op w).world = (use.Limit k w).2 ∧
    (((use.Limit k w).1.1 = true ∨ (use.Limit k w).1.2 ≠ none) →
      (c.limit db op w).db =
        db.AddError (op ++ " 操作触发限流; err: " ++ ErrGormTooManyRequests)) ∧
    (¬ ((use.Limit k w).1.1 = true ∨ (use.Limit k w).1.2 ≠ none) →
      (c.limit db op w).db = db) := by
  have hl : (match c.limiters op with
      | some lim => (lim, op)
      | none => (c.globalLimiter, "")).1.Limit
        (c.key (match c.limiters op with
      | some lim => (lim, op)
      | none => (c.globalLimiter, "")).2) w = use.Limit k w := by
    cases hlim : c.limiters op with
    | none => rw [hlim] at hk; cases hk; rfl
    | some lim => rw [hlim] at hk; cases hk; rfl
  unfold RateLimitCallbacks.limit
  simp only [hl]
  cases h2 : (use.Limit k w).1.2 with
  | some err => simp
  | none =>
    cases h1 : (use.Limit k w).1.1 <;> simp

end Gormx

namespace Slidewindow

variable {ω Req Resp : Type}

theorem interceptor_eq (l : Limiter ω) (req : Req)
    (handler : Req → ω → (Option Resp × Option Status) × ω) (w : ω) :
    (((l.limiter.Limit l.key w).1.1 = true ∨ (l.limiter.Limit l.key w).1.2 ≠ none) →
      (l.BuildUnaryServerInterceptor req handler w).resp = none ∧
      (l.BuildUnaryServerInterceptor req handler w).err =
        some ⟨ResourceExhausted, "触发限流"⟩ ∧
      (l.BuildUnaryServerInterceptor req handler w).handled = [] ∧
      (l.BuildUnaryServerInterceptor req handler w).world = (l.limiter.Limit l.key w).2) ∧
    (¬ ((l.limiter.Limit l.key w).1.1 = true ∨ (l.limiter.Limit l.key w).1.2 ≠ none) →
      (l.BuildUnaryServerInterceptor req handler w).resp =
        (handler req (l.limiter.Limit l.key w).2).1.1 ∧
      (l.BuildUnaryServerInterceptor req handler w).err =
        (handler req (l.limiter.Limit l.key w).2).1.2 ∧
      (l.BuildUnaryServerInterceptor req handler w).handled = [req] ∧
      (l.BuildUnaryServerInterceptor req handler w).world =
        (handler req (l.limiter.Limit l.key w).2).2) := by
  unfold Limiter.BuildUnaryServerInterceptor
  cases h2 : (l.limiter.Limit l.key w).1.2 with
  | some err => simp [h2]
  | none =>
    cases h1 : (l.limiter.Limit l.key w).1.1 <;> simp [h1, h2]

end Slidewindow

namespace Gormx

variable {ω Req Resp : Type}

/-- C9. Both rate-limiting collaborators reject exactly when the limiter returns
limited = true or a non-nil error.  `RateLimitCallbacks.limit`, for a non-empty operation
type such as the six registered ones, consults the limiter registered for the operation
through `WithOperationLimiter` under "gorm_db_limiter_<op>" when there is one and the
global limiter under "gorm_db_limiter" otherwise, and adds an error to the DB exactly on
rejection.  The interceptor of `BuildUnaryServerInterceptor` returns a nil response with a
ResourceExhausted status without calling the handler exactly on rejection, and otherwise
returns the handler's response and error. -/
theorem rate_limit_rejects (c : RateLimitCallbacks ω) (db : DB) (op : OperationType) (w : ω)
    (l : Slidewindow.Limiter ω) (req : Req)
    (handler : Req → ω → (Option Resp × Option Slidewindow.Status) × ω)
    (hop : op ≠ "") :
    (∀ op' ∈ operations, op' ≠ "") ∧
    (∀ (lim : limiter.Limiter ω) (c0 : RateLimitCallbacks ω),
      (WithOperationLimiter op lim c0).limiters op = some lim ∧
      (∀ o, o ≠ op → (WithOperationLimiter op lim c0).limiters o = c0.limiters o)) ∧
    (∀ g : limiter.Limiter ω, (NewRateLimitCallbacks g []).limiters op = none) ∧
    (∀ (use : limiter.Limiter ω) (k : String),
      (c.limiters op = some use ∧ k = "gorm_db_limiter_" ++ op ∨
        c.limiters op = none ∧ use = c.globalLimiter ∧ k = "gorm_db_limiter") →
      (c.limit db op w).world = (use.Limit k w).2 ∧
      (((use.Limit k w).1.1 = true ∨ (use.Limit k w).1.2 ≠ none) →
        (c.limit db op w).db =
          db.AddError (op ++ " 操作触发限流; err: " ++ ErrGormTooManyRequests) ∧
        (c.limit db op w).db ≠ db) ∧
      (¬ ((use.Limit k w).1.1 = true ∨ (use.Limit k w).1.2 ≠ none) →
        (c.limit db op w).db = db)) ∧
    (((l.limiter.Limit l.key w).1.1 = true ∨ (l.limiter.Limit l.key w).1.2 ≠ none) →
      (l.BuildUnaryServerInterceptor req handler w).resp = none ∧
      (l.BuildUnaryServerInterceptor req handler w).err =
        some ⟨Slidewindow.ResourceExhausted, "触发限流"⟩ ∧
      (l.BuildUnaryServerInterceptor req handler w).handled = [] ∧
      (l.BuildUnaryServerInterceptor req handler w).world = (l.limiter.Limit l.key w).2) ∧
    (¬ ((l.limiter.Limit l.key w).1.1 = true ∨ (l.limiter.Limit l.key w).1.2 ≠ none) →
      (l.BuildUnaryServerInterceptor req handler w).resp =
        (handler req (l.limiter.Limit l.key w).2).1.1 ∧
      (l.BuildUnaryServerInterceptor req handler w).err =
        (handler req (l.limiter.Limit l.key w).2).1.2 ∧
      (l.BuildUnaryServerInterceptor req handler w).handled = [req] ∧
      (l.BuildUnaryServerInterceptor req handler w).world =
        (handler req (l.limiter.Limit l.key w).2).2) := by
  refine ⟨by decide, ?_, fun g => rfl, ?_, (Slidewindow.interceptor_eq l req handler w).1,
    (Slidewindow.interceptor_eq l req handler w).2⟩
  · intro lim c0
    refine ⟨by simp [WithOperationLimiter], fun o ho => by simp [WithOperationLimiter, ho]⟩
  · intro use k hk
    have hkey : c.key op = "gorm_db_limiter_" ++ op := key_nonempty c op hop
    have hsel : (match c.limiters op with
        | some lim => (lim, c.key op)
        | none => (c.globalLimiter, c.key "")) = (use, k) := by
      rcases hk with ⟨h1, h2⟩ | ⟨h1, h2, h3⟩
      · rw [h1, h2, hkey]
      · rw [h1, h2, h3]; rfl
    obtain ⟨e1, e2, e3⟩ := limit_eq c db op w use k hsel
    refine ⟨e1, fun hr => ⟨e2 hr, ?_⟩, e3⟩
    rw [e2 hr]
    exact AddError_ne db _

/-- Witness of C9: the create callback with a registered limiter that fails. -/
theorem rate_limit_rejects_witness :
    (RateSample.callbacks.limit RateSample.emptyDB OperationCreate 0).db =
      { Error := ["create 操作触发限流; err: gorm 请求过多"] } ∧
    (RateSample.callbacks.limit RateSample.emptyDB OperationQuery 0).db =
      RateSample.emptyDB ∧
    (RateSample.callbacks.limit RateSample.emptyDB OperationQuery 1).db =
      { Error := ["query 操作触发限流; err: gorm 请求过多"] } ∧
    (RateSample.interceptorLimiter.BuildUnaryServerInterceptor "ping" RateSample.echo 0).resp
      = some "ping" ∧
    (RateSample.interceptorLimiter.BuildUnaryServerInterceptor "ping" RateSample.echo 1).err
      = some ⟨8, "触发限流"⟩ ∧
    (RateSample.interceptorLimiter.BuildUnaryServerInterceptor "ping" RateSample.echo 1).handled
      = [] := by
  have hw := rate_limit_rejects RateSample.callbacks RateSample.emptyDB OperationCreate 0
    RateSample.interceptorLimiter "ping" RateSample.echo (by decide)
  have hq := rate_limit_rejects RateSample.callbacks RateSample.emptyDB OperationQuery 0
    RateSample.interceptorLimiter "ping" RateSample.echo (by decide)
  have hq1 := rate_limit_rejects RateSample.callbacks RateSample.emptyDB OperationQuery 1
    RateSample.interceptorLimiter "ping" RateSample.echo (by decide)
  refine ⟨?_, ?_, ?_, ?_, ?_, ?_⟩
  · have := (hw.2.2.2.1 RateSample.broken "gorm_db_limiter_create"
      (Or.inl ⟨rfl, rfl⟩)).2.1 (Or.inr (by decide))
    rw [this.1]; rfl
  · exact (hq.2.2.2.1 RateSample.once "gorm_db_limiter"
      (Or.inr ⟨rfl, rfl, rfl⟩)).2.2 (by decide)
  · have := (hq1.2.2.2.1 RateSample.once "gorm_db_limiter"
      (Or.inr ⟨rfl, rfl, rfl⟩)).2.1 (Or.inl (by decide))
    rw [this.1]; rfl
  · rw [(hw.2.2.2.2.2 (by decide)).1]; rfl
  · exact (hq1.2.2.2.2.1 (Or.inl (by decide))).2.1
  · exact (hq1.2.2.2.2.1 (Or.inl (by decide))).2.2.1

end Gormx
